import Mathlib

/-!
# Verification of the news-monitor ingestion-and-relevance pipeline

Shallow embedding of the pipeline of `MyNewsMonitorBestBot`:
the relevance analyzers (`bot.py` / `monitor.py`), the dedup store
(`database.py`), the message extractor and fetch-retry discipline
(`parser.py`), and the delivery-queue batch sender (`bot.py`).

Machine-level details are made explicit: Python strings are lists of
code points, 32-bit arithmetic inside the hash is `Nat` with `% 2^32`,
floats of the scoring code are modelled exactly as rationals (all
constants involved — weights, 2.0, 1.5, 3.0, 0.5 — are dyadic, so the
rational model agrees with the float computation on the inputs used).
-/

attribute [local semireducible] Rat.add Rat.mul Rat.sub Rat.inv

namespace NewsBot

/-! ## Character classes used by the source regexes -/

/-- The character class `[a-zA-Zа-яА-Я0-9]` of `bot.py:224` (note: it has
neither underscore nor the letter ё). -/
def isAlnumRu (c : Char) : Bool :=
  (97 ≤ c.toNat && c.toNat ≤ 122) ||     -- a-z
  (65 ≤ c.toNat && c.toNat ≤ 90) ||      -- A-Z
  (1072 ≤ c.toNat && c.toNat ≤ 1103) ||  -- а-я (U+0430..U+044F)
  (1040 ≤ c.toNat && c.toNat ≤ 1071) ||  -- А-Я (U+0410..U+042F)
  (48 ≤ c.toNat && c.toNat ≤ 57)         -- 0-9

/-- Python's `\w` word-character class, for the alphabets this system uses
(ASCII letters/digits, underscore, and Cyrillic including ё/Ё). -/
def isWordCh (c : Char) : Bool :=
  (97 ≤ c.toNat && c.toNat ≤ 122) ||
  (65 ≤ c.toNat && c.toNat ≤ 90) ||
  (48 ≤ c.toNat && c.toNat ≤ 57) ||
  c == '_' ||
  (1040 ≤ c.toNat && c.toNat ≤ 1103) ||  -- А-Я and а-я
  c.toNat == 1025 || c.toNat == 1105     -- Ё, ё

/-- Python's `\s` whitespace class (ASCII part). -/
def isSpaceCh (c : Char) : Bool :=
  c == ' ' || c == '\t' || c == '\n' || c.toNat == 13 ||
  c.toNat == 11 || c.toNat == 12

/-- Model of `str.lower` for the alphabets this system uses (ASCII A-Z and
Cyrillic А-Я, Ё). -/
def lowerCh (c : Char) : Char :=
  if 65 ≤ c.toNat && c.toNat ≤ 90 then Char.ofNat (c.toNat + 32)
  else if 1040 ≤ c.toNat && c.toNat ≤ 1071 then Char.ofNat (c.toNat + 32)
  else if c.toNat == 1025 then Char.ofNat 1105
  else c

/-- Model of `str.lower` on a whole string. -/
def lowerStr (s : String) : String := ⟨s.data.map lowerCh⟩

/-- Python's substring test `pat in hay` on code-point lists. -/
def containsSub (hay pat : List Char) : Bool :=
  match hay with
  | [] => pat.isEmpty
  | _ :: t => pat.isPrefixOf hay || containsSub t pat

/-! ## `bot.py` — `RelevanceAnalyzer.analyze_message` -/

/-- One entry of the `found_keywords` list built at `bot.py:231`. -/
structure FoundKeyword where
  keyword : String
  weight : ℚ
  score : ℚ
  deriving DecidableEq, Repr

/-- The dict returned by `RelevanceAnalyzer.analyze_message` (`bot.py:254`). -/
structure MessageAnalysis where
  relevant : Bool
  score : ℚ
  total_score : ℚ
  negative_score : ℚ
  found_keywords : List FoundKeyword
  found_negative : List String
  keyword_count : Nat
  has_negative : Bool
  deriving DecidableEq, Repr

/-- Python's `max(0, x)` on the final score (`bot.py:252`). -/
def pyMax (a b : ℚ) : ℚ := if a < b then b else a

/-- Model of `re.search(r'[^a-zA-Zа-яА-Я0-9]' + kw + r'[^a-zA-Zа-яА-Я0-9]', text)`
(`bot.py:224-225`): some occurrence of `kw` sits between two
non-alphanumeric characters. -/
def wordBoundaryHit (l kw : List Char) : Bool :=
  match l with
  | [] => false
  | c :: rest =>
    (!isAlnumRu c && kw.isPrefixOf rest &&
      (match rest.drop kw.length with
       | c2 :: _ => !isAlnumRu c2
       | [] => false)) ||
    wordBoundaryHit rest kw

/-- The padded text `" " + text.lower() + " "` of `bot.py:205`. -/
def paddedLower (text : String) : List Char :=
  ' ' :: (lowerStr text).data ++ [' ']

/-- Score of one weighted keyword against the padded lower-cased text
(`bot.py:211-228`): space-delimited exact match scores `weight * 2.0`,
else a substring at a non-alphanumeric boundary scores `weight * 1.5`,
else a bare substring scores `weight * 1.0`, else `0`. -/
def keyword_score (tl : List Char) (kw : String) (w : ℚ) : ℚ :=
  let kl := (lowerStr kw).data
  if containsSub tl (' ' :: kl ++ [' ']) then w * 2
  else if containsSub tl kl then
    (if wordBoundaryHit tl kl then w * (3/2) else w * 1)
  else 0

/-- Suppression contribution of one negative keyword (`bot.py:242-249`):
`3.0` for a space-delimited exact match, else `1.5` for a bare substring,
else no match. -/
def negative_hit (tl : List Char) (nk : String) : Option (String × ℚ) :=
  let nl := (lowerStr nk).data
  if containsSub tl (' ' :: nl ++ [' ']) then some (nk, 3)
  else if containsSub tl nl then some (nk, 3/2)
  else none

/-- Model of `RelevanceAnalyzer.analyze_message` (`bot.py:201-263`): the weighted
scoring variant of the relevance analysis. -/
def analyze_message (text : String) (weighted_keywords : List (String × ℚ))
    (negative_keywords : List String) : MessageAnalysis :=
  let tl := paddedLower text
  let found := weighted_keywords.filterMap (fun kw =>
    let s := keyword_score tl kw.1 kw.2
    if 0 < s then some (⟨kw.1, kw.2, s⟩ : FoundKeyword) else none)
  let total_score := (found.map (·.score)).sum
  let negParts := negative_keywords.filterMap (negative_hit tl)
  let negative_score := (negParts.map (·.2)).sum
  let final_score := pyMax 0 (total_score - negative_score)
  { relevant := decide (1/2 < final_score)
    score := final_score
    total_score := total_score
    negative_score := negative_score
    found_keywords := found
    found_negative := negParts.map (·.1)
    keyword_count := found.length
    has_negative := decide (0 < negative_score) }

/-! ## `monitor.py` — `NewsMonitor.clean_text` and `analyze_news` -/

/-- Value of `Config.MIN_NEWS_LENGTH` (`config.py:20`). -/
def MIN_NEWS_LENGTH : Nat := 50

/-- Value of `Config.MAX_NEWS_LENGTH` (`config.py:19`). -/
def MAX_NEWS_LENGTH : Nat := 4000

/-- Model of `re.sub(r'http\S+|www\S+|https\S+', '', text)` (`monitor.py:46`):
delete every maximal run `http`/`www` followed by at least one
non-whitespace character.  Fuel-indexed so it reduces in the kernel;
every step consumes at least one character, so `fuel = l.length`
suffices. -/
def stripUrlsAux : Nat → List Char → List Char
  | 0, l => l
  | _ + 1, [] => []
  | fuel + 1, c :: rest =>
    let l := c :: rest
    if ['h', 't', 't', 'p'].isPrefixOf l &&
        (match (l.drop 4).head? with
         | some c2 => !isSpaceCh c2
         | none => false) then
      stripUrlsAux fuel ((l.drop 4).dropWhile (fun c2 => !isSpaceCh c2))
    else if ['w', 'w', 'w'].isPrefixOf l &&
        (match (l.drop 3).head? with
         | some c2 => !isSpaceCh c2
         | none => false) then
      stripUrlsAux fuel ((l.drop 3).dropWhile (fun c2 => !isSpaceCh c2))
    else
      c :: stripUrlsAux fuel rest

/-- URL removal pass of `clean_text`. -/
def stripUrls (l : List Char) : List Char := stripUrlsAux l.length l

/-- Model of `re.sub(r'[@#]\w+', '', text)` (`monitor.py:48`): delete `@`/`#`
followed by at least one word character together with the word run. -/
def stripMentionsAux : Nat → List Char → List Char
  | 0, l => l
  | _ + 1, [] => []
  | fuel + 1, c :: rest =>
    if (c == '@' || c == '#') &&
        (match rest.head? with
         | some c2 => isWordCh c2
         | none => false) then
      stripMentionsAux fuel (rest.dropWhile isWordCh)
    else
      c :: stripMentionsAux fuel rest

/-- Mention/hashtag removal pass of `clean_text`. -/
def stripMentions (l : List Char) : List Char := stripMentionsAux l.length l

/-- Model of `re.sub(r'\s+', ' ', text)` (`monitor.py:50`): collapse every
whitespace run to a single space. -/
def collapseSpacesAux : Nat → List Char → List Char
  | 0, l => l
  | _ + 1, [] => []
  | fuel + 1, c :: rest =>
    if isSpaceCh c then
      ' ' :: collapseSpacesAux fuel (rest.dropWhile isSpaceCh)
    else
      c :: collapseSpacesAux fuel rest

/-- Whitespace collapsing pass of `clean_text`. -/
def collapseSpaces (l : List Char) : List Char := collapseSpacesAux l.length l

/-- Model of `str.strip()`: drop leading and trailing whitespace. -/
def stripEnds (l : List Char) : List Char :=
  ((l.dropWhile isSpaceCh).reverse.dropWhile isSpaceCh).reverse

/-- Model of `NewsMonitor.clean_text` (`monitor.py:40-51`). -/
def clean_text (text : String) : String :=
  if text = "" then ""
  else ⟨stripEnds (collapseSpaces (stripMentions (stripUrls text.data)))⟩

/-- The dict returned by `NewsMonitor.analyze_news` (`monitor.py:60,80`).
The early short-text return carries no keyword lists; it is modelled
with empty lists. -/
structure NewsAnalysis where
  relevant : Bool
  keywords : List String
  negative_keywords : List String
  reason : String
  deriving DecidableEq, Repr

/-- The text `analyze_news` scans: the lower-cased raw text, truncated
to `MAX_NEWS_LENGTH` when the cleaned text exceeds it
(`monitor.py:55,62-63`). -/
def news_scan_text (text : String) : List Char :=
  if MAX_NEWS_LENGTH < (lowerStr (clean_text text)).data.length
  then ((lowerStr text).data).take MAX_NEWS_LENGTH
  else (lowerStr text).data

/-- Model of `NewsMonitor.analyze_news` (`monitor.py:53-85`): the hard-veto
variant of the relevance analysis — relevant iff at least one positive
keyword matches and no negative keyword matches. -/
def analyze_news (text : String) (keywords negative_keywords : List String) :
    NewsAnalysis :=
  if (lowerStr (clean_text text)).data.length < MIN_NEWS_LENGTH then
    { relevant := false, keywords := [], negative_keywords := []
      reason := "Текст слишком короткий" }
  else
    let tl := news_scan_text text
    let found := keywords.filter (fun kw => containsSub tl (lowerStr kw).data)
    let found_negative :=
      negative_keywords.filter (fun nk => containsSub tl (lowerStr nk).data)
    let is_relevant := decide (0 < found.length) && decide (found_negative.length = 0)
    { relevant := is_relevant
      keywords := found
      negative_keywords := found_negative
      reason := if is_relevant
                then "Найдено ключевых слов: " ++ toString found.length
                else "Не найдено ключевых слов" }

/-! ## MD5 (`hashlib.md5(...).hexdigest()` as used by `database.py:252`)

32-bit machine arithmetic is `Nat` with explicit reduction `% 2^32`. -/

/-- The modulus 2^32. -/
def m32 : Nat := 4294967296

/-- Addition modulo 2^32. -/
def add32 (a b : Nat) : Nat := (a + b) % m32

/-- Bitwise complement on 32 bits (for `a < 2^32`). -/
def not32 (a : Nat) : Nat := 4294967295 - a

/-- Left rotation of a 32-bit word (for `x < 2^32`, `n ≤ 32`). -/
def rotl32 (x n : Nat) : Nat :=
  (x % 2 ^ (32 - n)) * 2 ^ n + x / 2 ^ (32 - n)

/-- UTF-8 encoding of one code point (`str.encode('utf-8')`). -/
def utf8Char (c : Char) : List Nat :=
  let n := c.toNat
  if n < 128 then [n]
  else if n < 2048 then [192 + n / 64, 128 + n % 64]
  else if n < 65536 then [224 + n / 4096, 128 + (n / 64) % 64, 128 + n % 64]
  else [240 + n / 262144, 128 + (n / 4096) % 64, 128 + (n / 64) % 64, 128 + n % 64]

/-- UTF-8 encoding of a string as a byte list. -/
def utf8Bytes (s : String) : List Nat :=
  s.data.foldr (fun c acc => utf8Char c ++ acc) []

/-- The 64 MD5 sine-derived constants. -/
def md5K : List Nat :=
  [0xd76aa478, 0xe8c7b756, 0x242070db, 0xc1bdceee,
   0xf57c0faf, 0x4787c62a, 0xa8304613, 0xfd469501,
   0x698098d8, 0x8b44f7af, 0xffff5bb1, 0x895cd7be,
   0x6b901122, 0xfd987193, 0xa679438e, 0x49b40821,
   0xf61e2562, 0xc040b340, 0x265e5a51, 0xe9b6c7aa,
   0xd62f105d, 0x02441453, 0xd8a1e681, 0xe7d3fbc8,
   0x21e1cde6, 0xc33707d6, 0xf4d50d87, 0x455a14ed,
   0xa9e3e905, 0xfcefa3f8, 0x676f02d9, 0x8d2a4c8a,
   0xfffa3942, 0x8771f681, 0x6d9d6122, 0xfde5380c,
   0xa4beea44, 0x4bdecfa9, 0xf6bb4b60, 0xbebfbc70,
   0x289b7ec6, 0xeaa127fa, 0xd4ef3085, 0x04881d05,
   0xd9d4d039, 0xe6db99e5, 0x1fa27cf8, 0xc4ac5665,
   0xf4292244, 0x432aff97, 0xab9423a7, 0xfc93a039,
   0x655b59c3, 0x8f0ccc92, 0xffeff47d, 0x85845dd1,
   0x6fa87e4f, 0xfe2ce6e0, 0xa3014314, 0x4e0811a1,
   0xf7537e82, 0xbd3af235, 0x2ad7d2bb, 0xeb86d391]

/-- The 64 MD5 per-round left-rotation amounts. -/
def md5S : List Nat :=
  [7, 12, 17, 22, 7, 12, 17, 22, 7, 12, 17, 22, 7, 12, 17, 22,
   5, 9, 14, 20, 5, 9, 14, 20, 5, 9, 14, 20, 5, 9, 14, 20,
   4, 11, 16, 23, 4, 11, 16, 23, 4, 11, 16, 23, 4, 11, 16, 23,
   6, 10, 15, 21, 6, 10, 15, 21, 6, 10, 15, 21, 6, 10, 15, 21]

/-- MD5 padding: append `0x80`, zero-fill to 56 mod 64, then the bit
length as 8 little-endian bytes. -/
def md5Pad (msg : List Nat) : List Nat :=
  let L := msg.length
  let zeros := (56 + 64 - (L + 1) % 64) % 64
  msg ++ [128] ++ List.replicate zeros 0 ++
    (List.range 8).map (fun i => (8 * L) / 256 ^ i % 256)

/-- Little-endian 32-bit word from four bytes. -/
def leWord (b0 b1 b2 b3 : Nat) : Nat :=
  b0 + 256 * b1 + 65536 * b2 + 16777216 * b3

/-- Split a byte list into little-endian 32-bit words. -/
def toWords : List Nat → List Nat
  | b0 :: b1 :: b2 :: b3 :: rest => leWord b0 b1 b2 b3 :: toWords rest
  | _ => []

/-- One of the 64 MD5 steps: round function, message index, rotate-add. -/
def md5Step (M : List Nat) (st : Nat × Nat × Nat × Nat) (i : Nat) :
    Nat × Nat × Nat × Nat :=
  let (a, b, c, d) := st
  let f :=
    if i < 16 then (b &&& c) ||| (not32 b &&& d)
    else if i < 32 then (d &&& b) ||| (not32 d &&& c)
    else if i < 48 then b ^^^ c ^^^ d
    else c ^^^ (b ||| not32 d)
  let g :=
    if i < 16 then i
    else if i < 32 then (5 * i + 1) % 16
    else if i < 48 then (3 * i + 5) % 16
    else (7 * i) % 16
  let x := add32 (add32 (add32 a f) (md5K.getD i 0)) (M.getD g 0)
  (d, add32 b (rotl32 x (md5S.getD i 0)), b, c)

/-- Process one 64-byte chunk, updating the four-word state. -/
def md5Chunk (st : Nat × Nat × Nat × Nat) (chunk : List Nat) :
    Nat × Nat × Nat × Nat :=
  let M := toWords chunk
  let (a, b, c, d) := (List.range 64).foldl (md5Step M) st
  (add32 st.1 a, add32 st.2.1 b, add32 st.2.2.1 c, add32 st.2.2.2 d)

/-- Split a byte list into 64-byte chunks (fuel-indexed for kernel
reduction; `fuel = l.length` suffices). -/
def chunks64Aux : Nat → List Nat → List (List Nat)
  | 0, _ => []
  | _ + 1, [] => []
  | fuel + 1, l => l.take 64 :: chunks64Aux fuel (l.drop 64)

/-- Split a byte list into 64-byte chunks. -/
def chunks64 (l : List Nat) : List (List Nat) := chunks64Aux l.length l

/-- Lower-case hexadecimal digit. -/
def hexDigit (n : Nat) : Char :=
  if n < 10 then Char.ofNat (48 + n) else Char.ofNat (87 + n)

/-- Two-digit lower-case hexadecimal rendering of a byte. -/
def hexByte (n : Nat) : List Char := [hexDigit (n / 16), hexDigit (n % 16)]

/-- Little-endian bytes of a 32-bit word. -/
def leBytes (w : Nat) : List Nat :=
  [w % 256, w / 256 % 256, w / 65536 % 256, w / 16777216 % 256]

/-- Model of `hashlib.md5(s.encode('utf-8')).hexdigest()`. -/
def md5hex (s : String) : String :=
  let padded := md5Pad (utf8Bytes s)
  let st := (chunks64 padded).foldl md5Chunk
    (0x67452301, 0xefcdab89, 0x98badcfe, 0x10325476)
  let digest := leBytes st.1 ++ leBytes st.2.1 ++ leBytes st.2.2.1 ++
    leBytes st.2.2.2
  ⟨(digest.map hexByte).flatten⟩

/-! ## `database.py` — the dedup store (`sent_news` table) -/

/-- One row of the `sent_news` table (`database.py:57-66`); its primary
key is `(news_hash, user_id)`. -/
structure SentNewsRow where
  news_hash : String
  user_id : Int
  channel_username : String
  message_id : Option Int
  deriving DecidableEq, Repr

/-- Model of `Database.generate_news_hash` (`database.py:246-252`): the dedup key.
`if message_id:` tests Python truthiness, so `None` and `0` both select
the text-prefix form `md5(channel + ":" + text[:500])`. -/
def generate_news_hash (text : String) (channel : String)
    (message_id : Option Int) : String :=
  let truthy := match message_id with
    | some i => i != 0
    | none => false
  if truthy then
    md5hex (channel ++ ":" ++ toString (message_id.getD 0))
  else
    md5hex (channel ++ ":" ++ (⟨text.data.take 500⟩ : String))

/-- Model of `Database.is_news_sent` (`database.py:254-262`): a row with this
`(user_id, news_hash)` pair exists. -/
def is_news_sent (table : List SentNewsRow) (user_id : Int)
    (news_hash : String) : Bool :=
  table.any (fun r => r.user_id == user_id && r.news_hash == news_hash)

/-- Model of `Database.mark_news_sent` (`database.py:264-275`):
`INSERT OR IGNORE` — a row whose primary key `(news_hash, user_id)` is
already present leaves the table unchanged, otherwise the row is
appended. -/
def mark_news_sent (table : List SentNewsRow) (user_id : Int)
    (news_hash : String) (channel : String) (message_id : Option Int) :
    List SentNewsRow :=
  if table.any (fun r => r.news_hash == news_hash && r.user_id == user_id) then
    table
  else
    table ++ [⟨news_hash, user_id, channel, message_id⟩]

/-! ## `parser.py` — `EnhancedTelegramParser`

The extractor consumes `tgme_widget_message` containers.  What
BeautifulSoup returns for the individual lookups is modelled as a
record of already-located fields; a container on which any parse step
raises is the `malformed` case, absorbed by the
`try/except -> return None` of `_parse_message_enhanced`
(`parser.py:205-319`).  Timestamps are modelled after the ISO parse as
naive ordinals (`datetime.min = 0`). -/

/-- The six file-type markers checked at `parser.py:219-252`. -/
inductive FileKind where
  | photo | video | document | audio | voice | sticker
  deriving DecidableEq, Repr

/-- Fields of one well-formed message container. -/
structure RawWidget where
  text_content : Option String
  has_photo : Bool
  has_video : Bool
  has_document : Bool
  has_audio : Bool
  has_voice : Bool
  has_sticker : Bool
  time_value : Option Nat
  link_id : Option Int
  views_value : Option Nat
  deriving DecidableEq, Repr

/-- A raw container: either well formed, or one whose parsing raises. -/
inductive Widget where
  | malformed
  | ok (w : RawWidget)
  deriving DecidableEq, Repr

/-- The message dict built at `parser.py:303-315`. -/
structure ParsedMessage where
  text : String
  timestamp : Option Nat
  msg_id : Option Int
  channel : String
  has_file : Bool
  file_types : List FileKind
  views : Option Nat
  deriving DecidableEq, Repr

/-- Model of `EnhancedTelegramParser._parse_message_enhanced` (`parser.py:205-319`):
a malformed container yields `none` (the exception is swallowed), and a
container with neither non-empty text nor any file marker yields `none`
(`parser.py:255-256`). -/
def parse_message_enhanced (w : Widget) (channel : String) :
    Option ParsedMessage :=
  match w with
  | .malformed => none
  | .ok w =>
    let message_text := w.text_content.getD ""
    let has_file := w.has_photo || w.has_video || w.has_document ||
      w.has_audio || w.has_voice || w.has_sticker
    let file_types :=
      (if w.has_photo then [FileKind.photo] else []) ++
      (if w.has_video then [FileKind.video] else []) ++
      (if w.has_document then [FileKind.document] else []) ++
      (if w.has_audio then [FileKind.audio] else []) ++
      (if w.has_voice then [FileKind.voice] else []) ++
      (if w.has_sticker then [FileKind.sticker] else [])
    if message_text == "" && !has_file then none
    else some
      { text := message_text
        timestamp := w.time_value
        msg_id := w.link_id
        channel := channel
        has_file := has_file
        file_types := file_types
        views := w.views_value }

/-- Sort key of `parser.py:196`: `x.get('timestamp') or datetime.min` —
a missing timestamp sorts as the minimum representable value. -/
def msgKey (m : ParsedMessage) : Nat := m.timestamp.getD 0

/-- The descending-by-timestamp relation of the `reverse=True` sort. -/
def msgDesc (a b : ParsedMessage) : Prop := msgKey b ≤ msgKey a

instance : DecidableRel msgDesc := fun _ _ => Nat.decLe _ _

instance : IsTotal ParsedMessage msgDesc :=
  ⟨fun a b => Nat.le_total (msgKey b) (msgKey a)⟩

instance : IsTrans ParsedMessage msgDesc :=
  ⟨fun _ _ _ hab hbc => Nat.le_trans hbc hab⟩

/-- Model of `EnhancedTelegramParser.get_channel_messages` (`parser.py:177-203`):
parse up to `limit` containers, drop the unusable ones, and stably sort
descending by timestamp.  Python's `list.sort(key=..., reverse=True)` is
the unique stable descending sort, here realised as insertion sort on
`msgDesc`. -/
def get_channel_messages (widgets : List Widget) (channel : String)
    (limit : Nat) : List ParsedMessage :=
  List.insertionSort msgDesc
    ((widgets.take limit).filterMap (fun w => parse_message_enhanced w channel))

/-! ## `parser.py` — `fetch_with_retry` (`parser.py:103-133`)

The `backoff.on_exception(backoff.expo, (aiohttp.ClientError,
asyncio.TimeoutError), max_tries=3, ...)` decorator re-runs the body
only when one of those exceptions escapes it, at most 3 attempts in
total.  The body maps an HTTP response to a return value without
raising: status 200 returns the html, 404 returns `None`, and every
other status also returns `None`.  One network attempt's outcome is an
oracle value; elapsed real time (`max_time=30`, the backoff delays) is
outside the model. -/

/-- Outcome of one network attempt. -/
inductive AttemptOutcome where
  | resp (status : Nat) (body : String)
  | timeoutErr
  | transportErr
  deriving DecidableEq, Repr

/-- Result of the decorated call as seen by its caller. -/
inductive FetchResult where
  | content (html : String)
  | empty
  | raised
  deriving DecidableEq, Repr

/-- Process-wide `request_stats` counters (`parser.py:70`). -/
structure RequestStats where
  success : Nat
  failures : Nat
  timeouts : Nat
  deriving DecidableEq, Repr

/-- The body of `fetch_with_retry` on one attempt (`parser.py:113-133`):
result, whether an exception escapes, and the counter update. -/
def fetch_attempt (st : RequestStats) :
    AttemptOutcome → FetchResult × Bool × RequestStats
  | .resp status body =>
    if status == 200 then (.content body, false, { st with success := st.success + 1 })
    else if status == 404 then (.empty, false, st)
    else (.empty, false, { st with failures := st.failures + 1 })
  | .timeoutErr => (.raised, true, { st with timeouts := st.timeouts + 1 })
  | .transportErr => (.raised, true, { st with failures := st.failures + 1 })

/-- The retry loop of the `backoff` decorator: `triesLeft` attempts
remain; an escaping exception is retried while more than one attempt
remains, and propagates on the last one. -/
def fetch_retry_go (oracle : Nat → AttemptOutcome) (st : RequestStats) :
    Nat → Nat → FetchResult × Nat × RequestStats
  | 0, used => (.raised, used, st)
  | triesLeft + 1, used =>
    let (res, escaped, st') := fetch_attempt st (oracle used)
    if escaped then
      if triesLeft == 0 then (.raised, used + 1, st')
      else fetch_retry_go oracle st' triesLeft (used + 1)
    else (res, used + 1, st')

/-- Model of `fetch_with_retry` under `max_tries=3`: the result, the number of
attempts actually made, and the final counters. -/
def fetch_with_retry (oracle : Nat → AttemptOutcome)
    (st : RequestStats) : FetchResult × Nat × RequestStats :=
  fetch_retry_go oracle st 3 0

/-! ## `bot.py` — `NewsQueueManager._send_batch` (`bot.py:336-381`)

Formatting and the outbound send happen inside a per-item `try`; any
exception there is caught and the loop continues with the next item.
`db.mark_news_sent` runs strictly after the send succeeds.  `send_ok`
is the oracle for whether an item's format-and-send completes. -/

/-- The fields of one queued news item that the send loop consumes. -/
structure QueueItem where
  user_id : Int
  news_hash : String
  channel : String
  msg_id : Option Int
  deriving DecidableEq, Repr

/-- One iteration of the `_send_batch` loop body: on success the item
is recorded via `mark_news_sent` and counted; on a caught exception the
table and count are untouched and the loop continues. -/
def send_batch_step (send_ok : QueueItem → Bool)
    (acc : List SentNewsRow × Nat) (item : QueueItem) :
    List SentNewsRow × Nat :=
  if send_ok item then
    (mark_news_sent acc.1 item.user_id item.news_hash item.channel
      item.msg_id, acc.2 + 1)
  else acc

/-- Model of `_send_batch`: deliver each item of the batch in order; a failed
item leaves the dedup table untouched and is skipped; a sent item is
recorded via `mark_news_sent` and counted. Returns the updated table
and `sent_count`. -/
def send_batch (send_ok : QueueItem → Bool) (batch : List QueueItem)
    (table : List SentNewsRow) : List SentNewsRow × Nat :=
  batch.foldl (send_batch_step send_ok) (table, 0)

/-! ## Fixed example inputs used by the concrete theorems -/

/-- The call site `bot.py:714-718`: the analyzer receives only
`msg['text']`; no other field of the message reaches it. -/
def analyze_message_for (m : ParsedMessage) (wk : List (String × ℚ))
    (negs : List String) : MessageAnalysis :=
  analyze_message m.text wk negs

/-- A message that carries a file but whose text matches nothing. -/
def msg_file_only : ParsedMessage :=
  ⟨"unrelated", none, none, "news", true, [.photo], none⟩

/-- A message whose text matches `"ai"` and that carries no file. -/
def msg_text_only : ParsedMessage :=
  ⟨"ai news", none, none, "news", false, [], none⟩

/-- Input on which the two negative-keyword modes diverge. -/
def diverge_text : String :=
  "the new technology initiative will reshape the war torn region economy"

/-- Text of 200 `'a'`s then `'b'`: agrees with `text_b200` on its first 200
characters but not on its first 500. -/
def text_a200 : String := ⟨List.replicate 200 'a' ++ ['b']⟩

/-- Text of 200 `'a'`s then `'c'`. -/
def text_b200 : String := ⟨List.replicate 200 'a' ++ ['c']⟩

/-- Text of 500 `'a'`s then `'x'`: agrees with `text_b500` on its first 500
characters. -/
def text_a500 : String := ⟨List.replicate 500 'a' ++ ['x']⟩

/-- Text of 500 `'a'`s then `'y'`. -/
def text_b500 : String := ⟨List.replicate 500 'a' ++ ['y']⟩

/-- Well-formed container, timestamp 50. -/
def w_old : RawWidget :=
  ⟨some "alpha story", false, false, false, false, false, false,
   some 50, some 1, none⟩

/-- Well-formed container, timestamp 100. -/
def w_new : RawWidget :=
  ⟨some "beta story", false, false, false, false, false, false,
   some 100, some 2, none⟩

/-- Well-formed container with no timestamp. -/
def w_no_ts : RawWidget :=
  ⟨some "gamma", false, false, false, false, false, false,
   none, some 3, none⟩

/-- Container with no text but a photo marker, timestamp 1. -/
def w_empty_file : RawWidget :=
  ⟨none, true, false, false, false, false, false, some 1, some 4, none⟩

/-! ## Helper lemmas -/

/-- Lowering a string preserves its length. -/
lemma lowerStr_data_length (s : String) :
    (lowerStr s).data.length = s.data.length := by
  simp [lowerStr]

/-- After `mark_news_sent`, membership for any `(user, hash)` pair is
the old membership or a hit on the newly recorded pair. -/
lemma is_news_sent_mark (table : List SentNewsRow) (u : Int) (h : String)
    (c : String) (m : Option Int) (u' : Int) (h' : String) :
    is_news_sent (mark_news_sent table u h c m) u' h' =
      (is_news_sent table u' h' || (u == u' && h == h')) := by
  unfold is_news_sent mark_news_sent
  by_cases hpk : table.any (fun r => r.news_hash == h && r.user_id == u) = true
  · simp only [hpk, if_true]
    by_cases hhit : (u == u' && h == h') = true
    · have hu : u = u' := by
        have := (Bool.and_eq_true _ _).mp hhit
        exact eq_of_beq this.1
      have hh : h = h' := by
        have := (Bool.and_eq_true _ _).mp hhit
        exact eq_of_beq this.2
      subst hu hh
      rw [hhit, Bool.or_true]
      obtain ⟨r, hr, hrp⟩ := List.any_eq_true.mp hpk
      refine List.any_eq_true.mpr ⟨r, hr, ?_⟩
      rw [Bool.and_comm] at hrp
      exact hrp
    · rw [Bool.eq_false_iff.mpr hhit, Bool.or_false]
  · rw [if_neg hpk, List.any_append]
    simp [Bool.and_comm]

/-- The primary-key probe of `mark_news_sent` succeeds on the pair just
recorded. -/
lemma pk_present_after_mark (table : List SentNewsRow) (u : Int)
    (h : String) (c : String) (m : Option Int) :
    (mark_news_sent table u h c m).any
      (fun r => r.news_hash == h && r.user_id == u) = true := by
  unfold mark_news_sent
  by_cases hpk : table.any (fun r => r.news_hash == h && r.user_id == u) = true
  · simp only [hpk, if_true]
  · simp only [hpk, if_false, List.any_append, List.any_cons, List.any_nil]
    simp

/-! ## C6 — idempotence of the dedup record -/

/-- C6 — confirmed.  Recording a delivery is idempotent: a second
`mark_news_sent` for the same `(user, hash)` pair (even with a
different channel or message id) leaves the `sent_news` table exactly
as one call leaves it, and afterwards `is_news_sent` reports the pair
as seen. -/
theorem c6_record_idempotent (table : List SentNewsRow) (u : Int)
    (h : String) (c c' : String) (m m' : Option Int) :
    mark_news_sent (mark_news_sent table u h c m) u h c' m' =
      mark_news_sent table u h c m ∧
    is_news_sent (mark_news_sent table u h c m) u h = true := by
  constructor
  · conv_lhs => rw [mark_news_sent]
    rw [if_pos (pk_present_after_mark table u h c m)]
  · rw [is_news_sent_mark]
    simp

/-! ## C10 — zero external identifier is treated as absent -/

/-- C10 — confirmed.  `generate_news_hash` selects the key form by the
truthiness of `message_id`: for `message_id = 0` the key equals the
`None` form, which is the text-prefix form
`md5(channel + ":" + text[:500])`. -/
theorem c10_zero_external_id (t : String) (c : String) :
    generate_news_hash t c (some 0) = generate_news_hash t c none ∧
    generate_news_hash t c (some 0) =
      md5hex (c ++ ":" ++ (⟨t.data.take 500⟩ : String)) :=
  ⟨rfl, rfl⟩

/-! ## C9 — undocumented minimum-length gate -/

/-- C9 — confirmed.  `analyze_news` returns `relevant = false` whenever
the cleaned text (links, mentions and hashtags removed, whitespace
collapsed) is shorter than `MIN_NEWS_LENGTH = 50` characters, whatever
the keyword lists contain. -/
theorem c9_min_length_gate (text : String) (kws negs : List String)
    (h : (clean_text text).data.length < MIN_NEWS_LENGTH) :
    (analyze_news text kws negs).relevant = false := by
  have hc : ((lowerStr (clean_text text)).data.length < MIN_NEWS_LENGTH) := by
    rwa [lowerStr_data_length]
  simp only [analyze_news, if_pos hc]

/-- Witness for C9: the text `"ai ai ai"` matches the positive keyword
`"ai"` yet is rejected because its cleaned form has fewer than 50
characters. -/
theorem c9_min_length_gate_witness :
    (clean_text "ai ai ai").data.length < MIN_NEWS_LENGTH ∧
    (analyze_news "ai ai ai" ["ai"] []).relevant = false :=
  ⟨by decide, c9_min_length_gate "ai ai ai" ["ai"] [] (by decide)⟩

/-! ## C1 — there is no file-sentinel OR-combination -/

set_option maxRecDepth 20000

/-- C1 — counterexample.  The claim says a message carrying a file is
relevant whenever the rule set contains the file sentinel; but the
analyzer receives only the text, and a literal `"$file"` rule is an
ordinary keyword: the message `msg_file_only` (`has_file = true`, text
`"unrelated"`) is judged not relevant under rules
`["ai", "$file"]`. -/
theorem c1_counterexample :
    msg_file_only.has_file = true ∧
    (analyze_message_for msg_file_only [("ai", 1), ("$file", 1)] []).relevant
      = false := by
  decide

/-- C1 — amended.  The relevance analysis is a function of the message
text alone: no file flag reaches it and no sentinel rule is given
special treatment, so a message with a qualifying file but no text
match is not relevant, while the positive-text examples of the claim
behave as stated (`"ai news"` is relevant whatever `hasFile` is). -/
theorem c1_relevance_ignores_files :
    (∀ (t : String) ts ts' i i' ch ch' hf hf' ft ft' v v'
       (wk : List (String × ℚ)) (negs : List String),
       analyze_message_for ⟨t, ts, i, ch, hf, ft, v⟩ wk negs =
       analyze_message_for ⟨t, ts', i', ch', hf', ft', v'⟩ wk negs) ∧
    (analyze_message_for msg_file_only [("ai", 1), ("$file", 1)] []).relevant
      = false ∧
    (analyze_message_for msg_text_only [("ai", 1), ("$file", 1)] []).relevant
      = true ∧
    (analyze_message_for msg_text_only [("ai", 1)] []).relevant = true :=
  ⟨fun _ _ _ _ _ _ _ _ _ _ _ _ _ _ _ => rfl, by decide, by decide, by decide⟩

/-! ## C2 — the two negative-keyword modes -/

/-- C2 — confirmed.  `analyze_news` is the hard-veto mode: any matched
negative keyword forces `relevant = false`.  `analyze_message` is the
weighted-deduction mode: `relevant` is exactly
`max(0, total_score - negative_score) > 0.5`.  On `diverge_text`
(positive match `"technology"`, negative match `"war"`) the two modes
disagree. -/
theorem c2_negative_modes :
    (∀ t kws negs, (analyze_news t kws negs).negative_keywords ≠ [] →
       (analyze_news t kws negs).relevant = false) ∧
    (∀ t wk negs, (analyze_message t wk negs).relevant =
       decide (1/2 < pyMax 0 ((analyze_message t wk negs).total_score -
         (analyze_message t wk negs).negative_score))) ∧
    (analyze_message diverge_text [("technology", 2)] ["war"]).relevant
      = true ∧
    (analyze_news diverge_text ["technology"] ["war"]).relevant = false := by
  refine ⟨?_, fun _ _ _ => rfl, by decide, by decide⟩
  intro t kws negs hneg
  unfold analyze_news at *
  by_cases hlen : ((lowerStr (clean_text t)).data.length < MIN_NEWS_LENGTH)
  · rw [if_pos hlen]
  · rw [if_neg hlen] at hneg ⊢
    simp only [ne_eq] at hneg
    have h0 : ((negs.filter (fun nk =>
        containsSub (news_scan_text t) (lowerStr nk).data)).length = 0) = False := by
      simp only [eq_iff_iff, iff_false]
      intro hl
      exact hneg (List.length_eq_zero.mp hl)
    simp [h0]

/-- Witness for C2: on `diverge_text` the hard-veto analyzer finds the
negative keyword and is therefore not relevant. -/
theorem c2_negative_modes_witness :
    (analyze_news diverge_text ["technology"] ["war"]).negative_keywords
      ≠ [] ∧
    (analyze_news diverge_text ["technology"] ["war"]).relevant = false :=
  ⟨by decide, c2_negative_modes.1 diverge_text ["technology"] ["war"]
    (by decide)⟩

/-! ## C3 — weighted term matching -/

/-- C3 — counterexample.  In the text `"air"` the term `"ai"` is
followed by the alphanumeric `r`, so the boundary pattern fails and the
match is a bare substring worth `2.0 * 1.0 = 2.0`, not the claimed
`3.0`; and `"ai"` surrounded by newlines (whitespace, but not the
space characters the exact check uses) scores `3.0`, not the `4.0`
whole-word score the claim's "whitespace boundaries" reading gives. -/
theorem c3_counterexample :
    (analyze_message "air" [("ai", 2)] []).total_score = 2 ∧
    ¬ (analyze_message "air" [("ai", 2)] []).total_score = 3 ∧
    (analyze_message "x\nai\nx" [("ai", 2)] []).total_score = 3 ∧
    ¬ (analyze_message "x\nai\nx" [("ai", 2)] []).total_score = 4 := by
  decide

/-- C3 — amended.  Matching is case-insensitive and per term exactly
one mode is counted, the highest-scoring that applies: a space-delimited
exact word scores `weight * 2.0`; otherwise a substring between two
non-alphanumeric characters scores `weight * 1.5`; otherwise a bare
substring scores `weight * 1.0`.  `"ai"` at weight 2.0 scores 4.0 as a
whole word, 3.0 inside `"(ai)"`, and 2.0 as a bare substring inside
`"said"` — or inside `"air"`, where the trailing `r` is alphanumeric.
A term is counted once even when it occurs repeatedly. -/
theorem c3_weighted_matching :
    (∀ t kw (w : ℚ),
       containsSub (paddedLower t) (' ' :: (lowerStr kw).data ++ [' ']) = true →
       keyword_score (paddedLower t) kw w = w * 2) ∧
    (∀ t kw (w : ℚ),
       containsSub (paddedLower t) (' ' :: (lowerStr kw).data ++ [' ']) = false →
       containsSub (paddedLower t) (lowerStr kw).data = true →
       wordBoundaryHit (paddedLower t) (lowerStr kw).data = true →
       keyword_score (paddedLower t) kw w = w * (3/2)) ∧
    (∀ t kw (w : ℚ),
       containsSub (paddedLower t) (' ' :: (lowerStr kw).data ++ [' ']) = false →
       containsSub (paddedLower t) (lowerStr kw).data = true →
       wordBoundaryHit (paddedLower t) (lowerStr kw).data = false →
       keyword_score (paddedLower t) kw w = w * 1) ∧
    (analyze_message "ai news" [("ai", 2)] []).total_score = 4 ∧
    (analyze_message "use (ai) today" [("ai", 2)] []).total_score = 3 ∧
    (analyze_message "said" [("ai", 2)] []).total_score = 2 ∧
    (analyze_message "air" [("ai", 2)] []).total_score = 2 ∧
    (analyze_message "AI News" [("ai", 2)] []).total_score = 4 ∧
    (analyze_message "ai and ai again" [("ai", 2)] []).total_score = 4 := by
  refine ⟨?_, ?_, ?_, by decide, by decide, by decide, by decide, by decide,
    by decide⟩
  · intro t kw w h1
    simp only [keyword_score]
    rw [if_pos h1]
  · intro t kw w h1 h2 h3
    have h1' : ¬ (containsSub (paddedLower t)
        (' ' :: (lowerStr kw).data ++ [' ']) = true) := by
      rw [h1]; exact Bool.false_ne_true
    simp only [keyword_score]
    rw [if_neg h1', if_pos h2, if_pos h3]
  · intro t kw w h1 h2 h3
    have h1' : ¬ (containsSub (paddedLower t)
        (' ' :: (lowerStr kw).data ++ [' ']) = true) := by
      rw [h1]; exact Bool.false_ne_true
    have h3' : ¬ (wordBoundaryHit (paddedLower t)
        (lowerStr kw).data = true) := by
      rw [h3]; exact Bool.false_ne_true
    simp only [keyword_score]
    rw [if_neg h1', if_pos h2, if_neg h3']

/-- Witness for C3: the exact-word rule applied to `"ai news"`. -/
theorem c3_weighted_matching_witness :
    keyword_score (paddedLower "ai news") "ai" 2 = 2 * 2 :=
  c3_weighted_matching.1 "ai news" "ai" 2 (by decide)

/-! ## C4 — retry discipline of the fetcher -/

/-- C4 — counterexample.  A response with status 500 (neither 2xx nor
404) terminates the call after exactly one attempt with no content —
it is not retried, although the very next attempt would have returned
status 200.  Only raised exceptions reach the `backoff` decorator. -/
theorem c4_counterexample :
    fetch_with_retry
        (fun n => if n == 0 then .resp 500 "" else .resp 200 "recovered")
        ⟨0, 0, 0⟩ = (.empty, 1, ⟨0, 1, 0⟩) ∧
    fetch_with_retry (fun _ => .resp 200 "recovered") ⟨0, 0, 0⟩
      = (.content "recovered", 1, ⟨1, 0, 0⟩) := by
  decide

/-- C4 — amended.  Any HTTP response is terminal: status 200 returns
the body, 404 returns no content, and every other status also returns
no content without retry, all after exactly one attempt.  Only raised
timeouts and transport errors are retried, with the total number of
attempts capped at 3, after which the exception propagates. -/
theorem c4_retry_policy :
    (∀ oracle (st : RequestStats) s b, oracle 0 = AttemptOutcome.resp s b →
       s ≠ 200 →
       (fetch_with_retry oracle st).1 = FetchResult.empty ∧
       (fetch_with_retry oracle st).2.1 = 1) ∧
    (∀ oracle (st : RequestStats) b, oracle 0 = AttemptOutcome.resp 200 b →
       fetch_with_retry oracle st =
         (FetchResult.content b, 1, { st with success := st.success + 1 })) ∧
    (∀ oracle (st : RequestStats) b, oracle 0 = AttemptOutcome.resp 404 b →
       fetch_with_retry oracle st = (FetchResult.empty, 1, st)) ∧
    (∀ oracle (st : RequestStats) b, oracle 0 = AttemptOutcome.timeoutErr →
       oracle 1 = AttemptOutcome.resp 200 b →
       (fetch_with_retry oracle st).1 = FetchResult.content b ∧
       (fetch_with_retry oracle st).2.1 = 2) ∧
    fetch_with_retry (fun _ => AttemptOutcome.timeoutErr) ⟨0, 0, 0⟩
      = (FetchResult.raised, 3, ⟨0, 0, 3⟩) := by
  refine ⟨?_, ?_, ?_, ?_, by decide⟩
  · intro oracle st s b h0 hs
    have h200 : (s == 200) = false := beq_eq_false_iff_ne.mpr hs
    by_cases h404 : (s == 404) = true
    · simp [fetch_with_retry, fetch_retry_go, fetch_attempt, h0, h200, h404]
    · have h404' : (s == 404) = false := by
        rwa [Bool.not_eq_true] at h404
      simp [fetch_with_retry, fetch_retry_go, fetch_attempt, h0, h200, h404']
  · intro oracle st b h0
    simp [fetch_with_retry, fetch_retry_go, fetch_attempt, h0]
  · intro oracle st b h0
    simp [fetch_with_retry, fetch_retry_go, fetch_attempt, h0]
  · intro oracle st b h0 h1
    simp [fetch_with_retry, fetch_retry_go, fetch_attempt, h0, h1]

/-- Witness for C4: a concrete always-500 oracle ends with no content
after one attempt. -/
theorem c4_retry_policy_witness :
    (fetch_with_retry (fun _ => AttemptOutcome.resp 500 "x") ⟨0, 0, 0⟩).1
      = FetchResult.empty ∧
    (fetch_with_retry (fun _ => AttemptOutcome.resp 500 "x") ⟨0, 0, 0⟩).2.1
      = 1 :=
  c4_retry_policy.1 (fun _ => AttemptOutcome.resp 500 "x") ⟨0, 0, 0⟩ 500 "x"
    rfl (by decide)

/-! ## C5 — a failed send leaves the dedup store untouched -/

/-- Accumulator characterisation of the `_send_batch` loop: the count
grows by the number of successful sends, and a pair is recorded exactly
when it was already recorded or some successfully sent item carries
it. -/
lemma send_batch_go (send_ok : QueueItem → Bool) (batch : List QueueItem) :
    ∀ acc : List SentNewsRow × Nat,
    ((batch.foldl (send_batch_step send_ok) acc).2 =
      acc.2 + (batch.filter send_ok).length) ∧
    ∀ (u : Int) (h : String),
      is_news_sent (batch.foldl (send_batch_step send_ok) acc).1 u h =
        (is_news_sent acc.1 u h ||
          batch.any (fun j => send_ok j && (j.user_id == u && j.news_hash == h))) := by
  induction batch with
  | nil => intro acc; simp
  | cons j rest ih =>
    intro acc
    constructor
    · rw [List.foldl_cons, (ih (send_batch_step send_ok acc j)).1]
      by_cases hj : send_ok j = true
      · simp [send_batch_step, hj, List.filter_cons]
        omega
      · have hj' : send_ok j = false := by rwa [Bool.not_eq_true] at hj
        simp [send_batch_step, hj', List.filter_cons]
    · intro u h
      rw [List.foldl_cons, (ih (send_batch_step send_ok acc j)).2 u h]
      by_cases hj : send_ok j = true
      · simp [send_batch_step, hj, is_news_sent_mark, List.any_cons,
          Bool.or_assoc]
      · have hj' : send_ok j = false := by rwa [Bool.not_eq_true] at hj
        simp [send_batch_step, hj', List.any_cons]

/-- C5 — confirmed.  The `_send_batch` loop records a dedup entry only
for items whose send succeeded: the sent count equals the number of
successful items no matter how many fail (no abort), the final store
contains exactly the old entries plus the pairs of successfully sent
items, and a failed item whose pair no successful item shares leaves
its `is_news_sent` status unchanged. -/
theorem c5_failed_send_not_recorded :
    (∀ send_ok batch (table : List SentNewsRow),
       (send_batch send_ok batch table).2 = (batch.filter send_ok).length) ∧
    (∀ send_ok batch (table : List SentNewsRow) (u : Int) (h : String),
       is_news_sent (send_batch send_ok batch table).1 u h =
         (is_news_sent table u h ||
           batch.any (fun j => send_ok j &&
             (j.user_id == u && j.news_hash == h)))) ∧
    (∀ send_ok batch (table : List SentNewsRow) item, item ∈ batch →
       send_ok item = false →
       (∀ j ∈ batch, send_ok j = true →
         ¬(j.user_id = item.user_id ∧ j.news_hash = item.news_hash)) →
       is_news_sent (send_batch send_ok batch table).1
           item.user_id item.news_hash
         = is_news_sent table item.user_id item.news_hash) := by
  refine ⟨?_, ?_, ?_⟩
  · intro so b t
    simpa [send_batch] using (send_batch_go so b (t, 0)).1
  · intro so b t u h
    simpa [send_batch] using (send_batch_go so b (t, 0)).2 u h
  · intro so b t item _ _ hkey
    have h2 := (send_batch_go so b (t, 0)).2 item.user_id item.news_hash
    rw [send_batch, h2]
    have hany : (b.any (fun j => so j &&
        (j.user_id == item.user_id && j.news_hash == item.news_hash))) = false := by
      rw [List.any_eq_false]
      intro j hj
      by_cases hso : so j = true
      · have hne := hkey j hj hso
        simp only [hso, Bool.true_and, Bool.and_eq_true, beq_iff_eq]
        intro hcontra
        exact hne hcontra
      · have hso' : so j = false := by rwa [Bool.not_eq_true] at hso
        simp [hso']
    rw [hany, Bool.or_false]

/-- Witness for C5: a two-item batch where the first send fails and the
second succeeds — the failed item's pair stays unrecorded. -/
theorem c5_failed_send_not_recorded_witness :
    is_news_sent (send_batch (fun i => i.news_hash != "h1")
        [⟨7, "h1", "ch", some 1⟩, ⟨7, "h2", "ch", some 2⟩] []).1 7 "h1"
      = is_news_sent [] 7 "h1" :=
  c5_failed_send_not_recorded.2.2 (fun i => i.news_hash != "h1")
    [⟨7, "h1", "ch", some 1⟩, ⟨7, "h2", "ch", some 2⟩] []
    ⟨7, "h1", "ch", some 1⟩ (by decide) (by decide) (by decide)

/-! ## C7 — the dedup key's text-prefix length -/

/-- C7 — counterexample.  Two messages from the same channel agreeing
on their first 200 characters but differing at position 201 receive
different dedup keys — the truncation is at 500 characters
(`text[:500]`, `database.py:251`), not 200. -/
theorem c7_counterexample :
    text_a200.data.take 200 = text_b200.data.take 200 ∧
    generate_news_hash text_a200 "news" none ≠
      generate_news_hash text_b200 "news" none := by
  decide

/-- C7 — amended.  Without an external identifier the dedup key is the
stable hash `md5(channel + ":" + text[:500])`: any two texts agreeing
on their first 500 characters collide; with a non-zero external
identifier the key ignores the text entirely. -/
theorem c7_dedup_key :
    (∀ c t1 t2, t1.data.take 500 = t2.data.take 500 →
       generate_news_hash t1 c none = generate_news_hash t2 c none) ∧
    (∀ c (i : Int), i ≠ 0 → ∀ t t',
       generate_news_hash t c (some i) = generate_news_hash t' c (some i)) ∧
    (∀ c t, generate_news_hash t c none =
       md5hex (c ++ ":" ++ (⟨t.data.take 500⟩ : String))) := by
  refine ⟨?_, ?_, fun c t => rfl⟩
  · intro c t1 t2 hpre
    simp only [generate_news_hash]
    rw [hpre]
  · intro c i hi t t'
    have hb : (i != 0) = true := by
      simp only [bne, Bool.not_eq_true']
      exact beq_eq_false_iff_ne.mpr hi
    simp [generate_news_hash, hb]

/-- Witness for C7: two texts sharing their first 500 characters but
differing at position 501 receive the same key. -/
theorem c7_dedup_key_witness :
    generate_news_hash text_a500 "news" none =
      generate_news_hash text_b500 "news" none :=
  c7_dedup_key.1 "news" text_a500 text_b500 (by decide)

/-! ## C8 — extractor robustness and sort contract -/

/-- Stable filtering through one ordered insertion: an inserted element
whose key matches lands directly in front of the already-filtered tail
(it is inserted after every strictly greater key, i.e. in front of all
equal keys of the later elements). -/
lemma filter_key_orderedInsert (x : ParsedMessage) (l : List ParsedMessage)
    (k : Nat) :
    (List.orderedInsert msgDesc x l).filter (fun m => msgKey m == k) =
      if msgKey x == k
      then x :: l.filter (fun m => msgKey m == k)
      else l.filter (fun m => msgKey m == k) := by
  induction l with
  | nil =>
    by_cases hx : (msgKey x == k) = true
    · simp [List.orderedInsert, List.filter, hx]
    · have hx' : (msgKey x == k) = false := by rwa [Bool.not_eq_true] at hx
      simp [List.orderedInsert, List.filter, hx']
  | cons y ys ih =>
    by_cases hxy : msgDesc x y
    · by_cases hx : (msgKey x == k) = true
      · simp [List.orderedInsert, hxy, List.filter_cons, hx]
      · have hx' : (msgKey x == k) = false := by rwa [Bool.not_eq_true] at hx
        simp [List.orderedInsert, hxy, List.filter_cons, hx']
    · by_cases hx : (msgKey x == k) = true
      · have hkx : msgKey x = k := beq_iff_eq.mp hx
        have hylt : msgKey x < msgKey y := Nat.lt_of_not_le hxy
        have hy : (msgKey y == k) = false := by
          rw [beq_eq_false_iff_ne]
          omega
        simp [List.orderedInsert, hxy, List.filter_cons, hx, hy, ih]
      · have hx' : (msgKey x == k) = false := by rwa [Bool.not_eq_true] at hx
        simp [List.orderedInsert, hxy, List.filter_cons, hx', ih]

/-- Stability of the insertion sort: filtering on any fixed key value
yields the original relative order. -/
lemma filter_key_insertionSort (l : List ParsedMessage) (k : Nat) :
    (List.insertionSort msgDesc l).filter (fun m => msgKey m == k) =
      l.filter (fun m => msgKey m == k) := by
  induction l with
  | nil => rfl
  | cons a l ih =>
    rw [List.insertionSort, filter_key_orderedInsert]
    by_cases ha : (msgKey a == k) = true
    · simp [ha, ih, List.filter_cons]
    · have ha' : (msgKey a == k) = false := by rwa [Bool.not_eq_true] at ha
      simp [ha', ih, List.filter_cons]

/-- A parsed message never has both empty text and no file marker
(`parser.py:255-256`). -/
lemma parse_nonempty (w : Widget) (ch : String) (m : ParsedMessage)
    (hp : parse_message_enhanced w ch = some m) (ht : m.text = "") :
    m.has_file = true := by
  cases w with
  | malformed => simp [parse_message_enhanced] at hp
  | ok w =>
    simp only [parse_message_enhanced] at hp
    by_cases hb : (w.has_photo || w.has_video || w.has_document ||
        w.has_audio || w.has_voice || w.has_sticker) = true
    · simp only [hb, Bool.not_true, Bool.and_false, Bool.false_eq_true,
        if_false, Option.some.injEq] at hp
      rw [← hp]
    · have hb' : (w.has_photo || w.has_video || w.has_document ||
          w.has_audio || w.has_voice || w.has_sticker) = false := by
        rwa [Bool.not_eq_true] at hb
      by_cases htc : (w.text_content.getD "" == "") = true
      · simp [hb', htc] at hp
      · have htc' : (w.text_content.getD "" == "") = false := by
          rwa [Bool.not_eq_true] at htc
        simp only [hb', htc', Bool.not_false, Bool.false_and,
          Bool.and_true, Bool.false_eq_true, if_false,
          Option.some.injEq] at hp
        rw [← hp] at ht
        simp only at ht
        rw [ht] at htc'
        simp at htc'

/-- C8 — confirmed.  Extraction is total on its container list: the
result is sorted descending by timestamp (a missing timestamp counts as
the minimum value 0), the sort is stable (filtering on any key value
recovers the original order of the parsed sequence), every surviving
message has non-empty text or a file marker, one malformed container
among two well-formed ones yields exactly those two messages newest
first, and a timestamp-less message sorts as oldest. -/
theorem c8_extractor :
    (∀ ws ch lim, List.Sorted msgDesc (get_channel_messages ws ch lim)) ∧
    (∀ ws ch lim k,
       (get_channel_messages ws ch lim).filter (fun m => msgKey m == k) =
         ((ws.take lim).filterMap
             (fun w => parse_message_enhanced w ch)).filter
           (fun m => msgKey m == k)) ∧
    (∀ ws ch lim m, m ∈ get_channel_messages ws ch lim →
       m.text = "" → m.has_file = true) ∧
    (get_channel_messages [.ok w_old, .malformed, .ok w_new] "ch" 30).map
        (fun m => m.text) = ["beta story", "alpha story"] ∧
    (get_channel_messages [.ok w_no_ts, .ok w_old] "ch" 30).map
        (fun m => m.text) = ["alpha story", "gamma"] := by
  refine ⟨?_, ?_, ?_, by decide, by decide⟩
  · intro ws ch lim
    exact List.sorted_insertionSort msgDesc _
  · intro ws ch lim k
    exact filter_key_insertionSort _ k
  · intro ws ch lim m hm
    unfold get_channel_messages at hm
    rw [List.mem_insertionSort] at hm
    obtain ⟨w, _, hp⟩ := List.mem_filterMap.mp hm
    exact parse_nonempty w ch m hp

/-- Witness for C8: a container with no text but a photo marker
survives extraction, and the discard rule certifies its file flag. -/
theorem c8_extractor_witness :
    (⟨"", some 1, some 4, "ch", true, [.photo], none⟩ :
      ParsedMessage).has_file = true :=
  c8_extractor.2.2.1 [.ok w_empty_file] "ch" 5
    ⟨"", some 1, some 4, "ch", true, [.photo], none⟩ (by decide) rfl

end NewsBot
